import Mathlib

/-!
Shallow embedding of the expiry-reconciliation and notification logic of the
MTech-Project repository (Azure service-principal secret lifecycle automation).

Time is an integer count of seconds since an arbitrary epoch, so the SQL
expression DATEADD(day, -d, GETDATE()) becomes `now - d * 86400`.  SQL
three-valued logic on nullable timestamp columns is modelled explicitly: a
comparison against a NULL column evaluates to UNKNOWN, which does not satisfy
a WHERE clause.  Email bodies and subjects are abstracted to the template kind
together with the recipient and the id of the database row the email is about;
nothing in the notification decisions depends on the rendered HTML.
-/

/-- Seconds in one day, the unit of DATEADD(day, ...) arithmetic. -/
def secondsPerDay : Int := 86400

/-- Which of the three email templates a notification uses. -/
inductive EmailKind where
  | upcoming
  | expired
  | renewal
deriving DecidableEq

/-- An email as far as the notification logic observes it: the template kind,
the recipient address, and the id of the row it is about. -/
structure EmailMsg where
  kind : EmailKind
  recipient : String
  secretId : Nat
deriving DecidableEq

/-- SQL comparison of a nullable timestamp column against a bound:
NULL compares as UNKNOWN and does not satisfy the clause. -/
def sqlNullableLe (col : Option Int) (bound : Int) : Bool :=
  match col with
  | none => false
  | some t => decide (t ≤ bound)

/-- The UPDATE statement built by the flag-marking helpers: the table, the
column name interpolated into SET, and the id bound as a parameter. -/
structure SqlUpdate where
  table : String
  setColumn : String
  whereId : Nat
deriving DecidableEq

/-- The closed list of column names both flag-marking helpers accept. -/
def validNotificationColumns : List String :=
  ["notified_upcoming", "notified_expired", "notified_renewal"]

namespace MonitorSpnExpiry

/-- A row of the user_info table as monitor_spn_expiry.py reads it. -/
structure SecretRow where
  id : Nat
  userName : String
  email : String
  appName : String
  clientId : String
  expiresOn : Int
  notifiedUpcoming : Bool
  notifiedExpired : Bool
  notifiedRenewal : Bool
  lastNotifiedAt : Option Int
deriving DecidableEq

/-- The throttle disjunction shared by get_expiring_soon and
get_expired_secrets: the flag is 0, OR last_notified_at IS NULL, OR
last_notified_at is at least intervalDays days old. -/
def resendGate (now : Int) (intervalDays : Nat) (flag : Bool) (last : Option Int) : Bool :=
  !flag || last.isNone || sqlNullableLe last (now - (intervalDays : Int) * secondsPerDay)

/-- WHERE clause of UserService.get_expiring_soon: expires_on BETWEEN now AND
now + days (both bounds inclusive), conjoined with the throttle gate on
notified_upcoming and last_notified_at. -/
def selExpiringSoon (now : Int) (days intervalDays : Nat) (r : SecretRow) : Bool :=
  (decide (now ≤ r.expiresOn) && decide (r.expiresOn ≤ now + (days : Int) * secondsPerDay))
    && resendGate now intervalDays r.notifiedUpcoming r.lastNotifiedAt

/-- WHERE clause of UserService.get_expired_secrets: expires_on < now
(strict), conjoined with the throttle gate on notified_expired and
last_notified_at. -/
def selExpired (now : Int) (intervalDays : Nat) (r : SecretRow) : Bool :=
  decide (r.expiresOn < now)
    && resendGate now intervalDays r.notifiedExpired r.lastNotifiedAt

/-- WHERE clause of UserService.get_renewed_secrets: expires_on >= now,
notified_expired = 1, and the renewal confirmation not sent yet. -/
def selRenewed (now : Int) (r : SecretRow) : Bool :=
  decide (now ≤ r.expiresOn) && r.notifiedExpired && !r.notifiedRenewal

/-- Row effect of mark_as_notified(id, "notified_upcoming"):
SET notified_upcoming = 1, last_notified_at = GETDATE(). -/
def markUpcoming (now : Int) (r : SecretRow) : SecretRow :=
  { r with notifiedUpcoming := true, lastNotifiedAt := some now }

/-- Row effect of mark_as_notified(id, "notified_expired"). -/
def markExpired (now : Int) (r : SecretRow) : SecretRow :=
  { r with notifiedExpired := true, lastNotifiedAt := some now }

/-- Row effect of mark_as_notified(id, "notified_renewal"). -/
def markRenewal (now : Int) (r : SecretRow) : SecretRow :=
  { r with notifiedRenewal := true, lastNotifiedAt := some now }

/-- One of the three passes of main: fetch the candidate rows with the query
predicate `sel` (a snapshot of the table), send one email per candidate, and
run the marking UPDATE against every row whose id equals a candidate id. -/
def notifyStep (sel : SecretRow → Bool) (mark : SecretRow → SecretRow)
    (kind : EmailKind) (st : List SecretRow) : List SecretRow × List EmailMsg :=
  let cands := st.filter sel
  (st.map (fun r => if cands.any (fun c => c.id == r.id) then mark r else r),
   cands.map (fun c => { kind := kind, recipient := c.email, secretId := c.id }))

/-- monitor_spn_expiry.main: the three passes in order (expiring-soon with a
30-day window and 2-day resend interval, expired with a 2-day resend interval,
renewal confirmations).  Each pass evaluates the clock afresh inside its own
query, hence the three time arguments.  The second component is every email
the run hands to send_email, in order; main marks the flag after each send
attempt without consulting any success signal. -/
def main (now1 now2 now3 : Int) (st : List SecretRow) : List SecretRow × List EmailMsg :=
  let s1 := notifyStep (selExpiringSoon now1 30 2) (markUpcoming now1) .upcoming st
  let s2 := notifyStep (selExpired now2 2) (markExpired now2) .expired s1.1
  let s3 := notifyStep (selRenewed now3) (markRenewal now3) .renewal s2.1
  (s3.1, s1.2 ++ s2.2 ++ s3.2)

/-- The subset of attempted emails the SMTP server accepted.  send_email in
monitor_spn_expiry.py catches any SMTP failure, prints it, and returns
nothing, so main proceeds identically either way. -/
def deliveredEmails (sendOk : EmailMsg → Bool) (emails : List EmailMsg) : List EmailMsg :=
  emails.filter sendOk

/-- What a run can never undo: the monitoring job keeps id, email and
expires_on of a row unchanged, and the only flag writes are SET flag = 1, so
a flag that is true before the run is still true after it. -/
def RowPreserved (r r' : SecretRow) : Prop :=
  r'.id = r.id ∧ r'.email = r.email ∧ r'.expiresOn = r.expiresOn ∧
    (r.notifiedUpcoming = true → r'.notifiedUpcoming = true) ∧
    (r.notifiedExpired = true → r'.notifiedExpired = true) ∧
    (r.notifiedRenewal = true → r'.notifiedRenewal = true)

/-- UserService.mark_as_notified of monitor_spn_expiry.py: raises ValueError
(modelled as Except.error) for a column outside the closed list, otherwise
issues the UPDATE with the column name interpolated into the statement. -/
def mark_as_notified (secretId : Nat) (column : String) : Except String SqlUpdate :=
  if column ∈ validNotificationColumns then
    .ok { table := "user_info", setColumn := column, whereId := secretId }
  else
    .error ("Invalid column name: " ++ column)

end MonitorSpnExpiry

namespace Services

/-- A row of the app_secrets table as services.py reads it. -/
structure AppSecretRow where
  id : Nat
  appName : String
  keyId : String
  endDate : Int
  createdDate : Int
  displayName : String
  notifiedUpcoming : Bool
  notifiedExpired : Bool
  notifiedRenewal : Bool
  lastUpdatedAt : Option Int
  userInfoId : Nat
deriving DecidableEq

/-- The throttle disjunction of services.py get_expiring_secrets and
get_expired_secrets: flag = 0 OR (flag = 1 AND last_updated_at is at least
intervalDays days old).  Unlike monitor_spn_expiry.py there is no IS NULL
clause, so a NULL last_updated_at next to a set flag suppresses the row. -/
def resendGate (now : Int) (intervalDays : Nat) (flag : Bool) (lastUpdatedAt : Option Int) : Bool :=
  !flag || (flag && sqlNullableLe lastUpdatedAt (now - (intervalDays : Int) * secondsPerDay))

/-- WHERE clause of UserService.get_expiring_secrets: end_date BETWEEN now AND
now + days (both bounds inclusive) with the services throttle gate. -/
def selExpiring (now : Int) (days intervalDays : Nat) (r : AppSecretRow) : Bool :=
  (decide (now ≤ r.endDate) && decide (r.endDate ≤ now + (days : Int) * secondsPerDay))
    && resendGate now intervalDays r.notifiedUpcoming r.lastUpdatedAt

/-- WHERE clause of UserService.get_expired_secrets of services.py:
end_date < now (strict) with the services throttle gate. -/
def selExpired (now : Int) (intervalDays : Nat) (r : AppSecretRow) : Bool :=
  decide (r.endDate < now) && resendGate now intervalDays r.notifiedExpired r.lastUpdatedAt

/-- UserService.get_expiring_secrets: the rows of app_secrets selected for an
upcoming-expiry notification. -/
def get_expiring_secrets (now : Int) (days intervalDays : Nat) (st : List AppSecretRow) :
    List AppSecretRow :=
  st.filter (selExpiring now days intervalDays)

/-- UserService.get_expired_secrets of services.py: the rows of app_secrets
selected for an expired notification. -/
def get_expired_secrets (now : Int) (intervalDays : Nat) (st : List AppSecretRow) :
    List AppSecretRow :=
  st.filter (selExpired now intervalDays)

/-- UserService.mark_secret_notified of services.py: validates the column name
inside the helper and performs no UPDATE at all for an unknown column. -/
def mark_secret_notified (secretId : Nat) (column : String) : Option SqlUpdate :=
  if column ∈ validNotificationColumns then
    some { table := "app_secrets", setColumn := column, whereId := secretId }
  else
    none

end Services

namespace Controllers

/-- The user_info row the notification loops fetch for each secret. -/
structure UserInfo where
  id : Nat
  userName : String
  email : String
deriving DecidableEq

/-- Outcome of the per-secret get_user_info_by_id lookup inside the
notification loops: the helper can raise (the exception is caught by the
per-secret try/except and the loop continues), return no row (the loop runs
continue), or return the user. -/
inductive LookupResult where
  | failure
  | missing
  | found (u : UserInfo)

/-- The per-secret loop shared by send_upcoming_expiry_notifications and
send_expired_notifications of controllers.py: for each candidate secret, look
up its user (any exception is caught and the loop continues with the next
secret), send the email, and call mark_secret_notified only when _send_email
returned True.  Returns the successfully sent emails and the ids passed to
mark_secret_notified, in loop order. -/
def notifyLoop (kind : EmailKind) (fetchUser : Nat → LookupResult)
    (sendOk : Nat → Bool) : List Services.AppSecretRow → List EmailMsg × List Nat
  | [] => ([], [])
  | r :: rest =>
    let tail := notifyLoop kind fetchUser sendOk rest
    match fetchUser r.userInfoId with
    | .failure => tail
    | .missing => tail
    | .found u =>
      if sendOk r.id then
        ({ kind := kind, recipient := u.email, secretId := r.id } :: tail.1, r.id :: tail.2)
      else
        tail

/-- AppController.send_upcoming_expiry_notifications: run the loop over the
candidates of get_expiring_secrets. -/
def send_upcoming_expiry_notifications (now : Int) (days intervalDays : Nat)
    (fetchUser : Nat → LookupResult) (sendOk : Nat → Bool)
    (st : List Services.AppSecretRow) : List EmailMsg × List Nat :=
  notifyLoop .upcoming fetchUser sendOk (Services.get_expiring_secrets now days intervalDays st)

/-- AppController.send_expired_notifications: run the loop over the candidates
of get_expired_secrets. -/
def send_expired_notifications (now : Int) (intervalDays : Nat)
    (fetchUser : Nat → LookupResult) (sendOk : Nat → Bool)
    (st : List Services.AppSecretRow) : List EmailMsg × List Nat :=
  notifyLoop .expired fetchUser sendOk (Services.get_expired_secrets now intervalDays st)

end Controllers

namespace Clients

/-- An application object as Microsoft Graph returns it to
get_application_with_secrets: the object id and the password credentials,
each credential carrying its keyId and endDateTime. -/
structure GraphApp where
  id : String
  appId : String
  displayName : String
  passwordCredentials : List (String × Int)
deriving DecidableEq

/-- What the Graph round trip produced: a RequestException (network or auth
error, or a non-2xx status raised by raise_for_status), or a response whose
value array holds the applications matching the displayName filter. -/
inductive GraphResult where
  | requestError (msg : String)
  | ok (value : List GraphApp)
deriving DecidableEq

/-- AzureADClient.get_application_with_secrets: returns the first application
of the value array, None when the array is empty, and None as well when the
request raised, because the except branch only prints and falls through to
the trailing return None. -/
def get_application_with_secrets : GraphResult → Option GraphApp
  | .requestError _ => none
  | .ok [] => none
  | .ok (a :: _) => some a

end Clients

namespace SpecModel

/-- Modelled from the spec: the notification-gating sentence, word by word.
A notification of the relevant kind is sent only if the flag for the kind is
false, or last_notified_at is null, or now minus last_notified_at is at least
resend_interval_days. -/
def specGate (now : Int) (intervalDays : Nat) (flag : Bool) (last : Option Int) : Bool :=
  !flag ||
    (match last with
     | none => true
     | some t => decide (now - t ≥ (intervalDays : Int) * secondsPerDay))

end SpecModel

section GateLemmas

/-- The monitor_spn_expiry gate is exactly the gating sentence of the spec. -/
lemma monitor_gate_eq_spec (now : Int) (i : Nat) (flag : Bool) (last : Option Int) :
    MonitorSpnExpiry.resendGate now i flag last = SpecModel.specGate now i flag last := by
  cases last with
  | none =>
    cases flag <;>
      simp [MonitorSpnExpiry.resendGate, SpecModel.specGate, sqlNullableLe]
  | some t =>
    cases flag <;>
      simp [MonitorSpnExpiry.resendGate, SpecModel.specGate, sqlNullableLe,
        decide_eq_decide] <;>
      omega

/-- The services.py gate agrees with the spec whenever last_updated_at is not
NULL (which is every row this code inserts or updates). -/
lemma services_gate_eq_spec (now : Int) (i : Nat) (flag : Bool) (t : Int) :
    Services.resendGate now i flag (some t) = SpecModel.specGate now i flag (some t) := by
  cases flag <;>
    simp [Services.resendGate, SpecModel.specGate, sqlNullableLe, decide_eq_decide] <;>
    omega

end GateLemmas

/-- C1: for candidates of the expiring-soon and expired queries, a
notification is selected for sending in a run exactly when the kind's flag is
0, or last_notified_at is NULL, or at least the resend interval has elapsed
since last_notified_at: the monitor_spn_expiry gate coincides with the spec
gate on all states, the services.py gate coincides on every non-NULL
last_updated_at, and the candidate filters of the run factor through the spec
gate. -/
theorem claim1_notification_gating :
    ∀ (now : Int) (intervalDays : Nat) (flag : Bool) (last : Option Int) (t : Int)
      (st : List MonitorSpnExpiry.SecretRow),
    MonitorSpnExpiry.resendGate now intervalDays flag last
        = SpecModel.specGate now intervalDays flag last ∧
    Services.resendGate now intervalDays flag (some t)
        = SpecModel.specGate now intervalDays flag (some t) ∧
    st.filter (MonitorSpnExpiry.selExpiringSoon now 30 2)
        = st.filter (fun r =>
            (decide (now ≤ r.expiresOn) && decide (r.expiresOn ≤ now + 30 * secondsPerDay))
              && SpecModel.specGate now 2 r.notifiedUpcoming r.lastNotifiedAt) ∧
    st.filter (MonitorSpnExpiry.selExpired now 2)
        = st.filter (fun r =>
            decide (r.expiresOn < now)
              && SpecModel.specGate now 2 r.notifiedExpired r.lastNotifiedAt) := by
  intro now intervalDays flag last t st
  refine ⟨monitor_gate_eq_spec now intervalDays flag last,
    services_gate_eq_spec now intervalDays flag t, ?_, ?_⟩
  · refine List.filter_congr ?_
    intro r _
    simp [MonitorSpnExpiry.selExpiringSoon, monitor_gate_eq_spec]
  · refine List.filter_congr ?_
    intro r _
    simp [MonitorSpnExpiry.selExpired, monitor_gate_eq_spec]

/-- C5: an expiry exactly at now plus the threshold is still an expiring-soon
candidate (the BETWEEN upper bound is inclusive, so selection reduces to the
throttle gate), while one second past the threshold is selected by neither the
expiring-soon nor the expired query, in both monitor_spn_expiry.py and
services.py. -/
theorem claim5_threshold_boundary :
    ∀ (now : Int) (days intervalDays : Nat)
      (r : MonitorSpnExpiry.SecretRow) (q : Services.AppSecretRow),
    MonitorSpnExpiry.selExpiringSoon now days intervalDays
        { r with expiresOn := now + (days : Int) * secondsPerDay }
      = MonitorSpnExpiry.resendGate now intervalDays r.notifiedUpcoming r.lastNotifiedAt ∧
    MonitorSpnExpiry.selExpiringSoon now days intervalDays
        { r with expiresOn := now + (days : Int) * secondsPerDay + 1 } = false ∧
    MonitorSpnExpiry.selExpired now intervalDays
        { r with expiresOn := now + (days : Int) * secondsPerDay + 1 } = false ∧
    Services.selExpiring now days intervalDays
        { q with endDate := now + (days : Int) * secondsPerDay }
      = Services.resendGate now intervalDays q.notifiedUpcoming q.lastUpdatedAt ∧
    Services.selExpiring now days intervalDays
        { q with endDate := now + (days : Int) * secondsPerDay + 1 } = false ∧
    Services.selExpired now intervalDays
        { q with endDate := now + (days : Int) * secondsPerDay + 1 } = false := by
  intro now days intervalDays r q
  refine ⟨?_, ?_, ?_, ?_, ?_, ?_⟩ <;>
    simp [MonitorSpnExpiry.selExpiringSoon, MonitorSpnExpiry.selExpired,
      Services.selExpiring, Services.selExpired, secondsPerDay] <;>
    try omega

/-- C6 counterexample: a secret whose expiry equals the current instant is NOT
selected by the expired query of monitor_spn_expiry.py (expires_on < now is
strict) nor by the expired query of services.py (end_date < now is strict),
even with every throttle gate open; instead it is selected by the
expiring-soon query, contradicting the claim that an expiry exactly equal to
now falls in the EXPIRED category. -/
theorem claim6_counterexample :
    MonitorSpnExpiry.selExpired 0 2
        ⟨1, "alice", "alice@example.com", "app-a", "cid-a", 0, false, false, false, none⟩
      = false ∧
    MonitorSpnExpiry.selExpiringSoon 0 30 2
        ⟨1, "alice", "alice@example.com", "app-a", "cid-a", 0, false, false, false, none⟩
      = true ∧
    Services.selExpired 0 2
        ⟨1, "app-a", "key", 0, 0, "d", false, false, false, some 0, 1⟩ = false := by
  decide

/-- C6 amended: an application is an expired candidate exactly when its expiry
is strictly before now (selection then reduces to the throttle gate); an
expiry at or after now is never an expired candidate, and an expiry exactly
equal to now is an expiring-soon candidate (the BETWEEN lower bound is
inclusive), in both monitor_spn_expiry.py and services.py. -/
theorem claim6_expired_boundary :
    ∀ (now : Int) (days intervalDays : Nat) (k : Nat)
      (r : MonitorSpnExpiry.SecretRow) (q : Services.AppSecretRow),
    MonitorSpnExpiry.selExpired now intervalDays
        { r with expiresOn := now - 1 - (k : Int) }
      = MonitorSpnExpiry.resendGate now intervalDays r.notifiedExpired r.lastNotifiedAt ∧
    MonitorSpnExpiry.selExpired now intervalDays
        { r with expiresOn := now + (k : Int) } = false ∧
    MonitorSpnExpiry.selExpiringSoon now days intervalDays
        { r with expiresOn := now }
      = MonitorSpnExpiry.resendGate now intervalDays r.notifiedUpcoming r.lastNotifiedAt ∧
    Services.selExpired now intervalDays
        { q with endDate := now - 1 - (k : Int) }
      = Services.resendGate now intervalDays q.notifiedExpired q.lastUpdatedAt ∧
    Services.selExpired now intervalDays
        { q with endDate := now + (k : Int) } = false := by
  intro now days intervalDays k r q
  refine ⟨?_, ?_, ?_, ?_, ?_⟩ <;>
    simp [MonitorSpnExpiry.selExpired, MonitorSpnExpiry.selExpiringSoon,
      Services.selExpired, secondsPerDay] <;>
    try omega

/-- C9 counterexample: a Graph request failure and an empty match list produce
the same return value (None), so a transient fetch failure is not
distinguishable from the application not being found. -/
theorem claim9_counterexample :
    Clients.get_application_with_secrets (.requestError "connection timeout")
      = Clients.get_application_with_secrets (.ok ([] : List Clients.GraphApp)) := rfl

/-- C9 amended: get_application_with_secrets returns the first application of
the response value array together with its raw credential list (it computes no
maximum expiry), returns None when no application matches, and returns None as
well when the request fails, so failure and not-found are indistinguishable to
the caller. -/
theorem claim9_fetch_behavior :
    ∀ (m : String) (a : Clients.GraphApp) (rest : List Clients.GraphApp),
    Clients.get_application_with_secrets (.requestError m) = none ∧
    Clients.get_application_with_secrets (.ok []) = none ∧
    Clients.get_application_with_secrets (.ok (a :: rest)) = some a := by
  intro m a rest
  exact ⟨rfl, rfl, rfl⟩

/-- C10: for any column name outside the closed three-element list, the
monitor_spn_expiry helper raises ValueError and the services helper performs
no UPDATE at all; and every UPDATE either helper does produce interpolates
exactly its (validated) column argument, so no other string ever reaches the
SQL statement. -/
theorem claim10_column_validation :
    ∀ (column : String) (secretId : Nat),
    (column ∉ validNotificationColumns →
      MonitorSpnExpiry.mark_as_notified secretId column
          = .error ("Invalid column name: " ++ column) ∧
        Services.mark_secret_notified secretId column = none) ∧
    (∀ u, MonitorSpnExpiry.mark_as_notified secretId column = .ok u →
      u.setColumn ∈ validNotificationColumns ∧ u.setColumn = column) ∧
    (∀ u, Services.mark_secret_notified secretId column = some u →
      u.setColumn ∈ validNotificationColumns ∧ u.setColumn = column) := by
  intro column secretId
  by_cases h : column ∈ validNotificationColumns <;>
    simp [MonitorSpnExpiry.mark_as_notified, Services.mark_secret_notified, h]

/-- C10 witness: the column name expires_on is outside the closed list, and
both helpers reject it. -/
theorem claim10_witness :
    MonitorSpnExpiry.mark_as_notified 7 "expires_on"
        = .error ("Invalid column name: " ++ "expires_on") ∧
      Services.mark_secret_notified 7 "expires_on" = none :=
  (claim10_column_validation "expires_on" 7).1 (by decide)

section RowPreservedLemmas

open MonitorSpnExpiry

lemma rowPreserved_refl (r : SecretRow) : RowPreserved r r :=
  ⟨rfl, rfl, rfl, fun h => h, fun h => h, fun h => h⟩

lemma rowPreserved_trans {a b c : SecretRow}
    (h1 : RowPreserved a b) (h2 : RowPreserved b c) : RowPreserved a c := by
  obtain ⟨i1, e1, x1, u1, p1, n1⟩ := h1
  obtain ⟨i2, e2, x2, u2, p2, n2⟩ := h2
  exact ⟨i2.trans i1, e2.trans e1, x2.trans x1,
    fun h => u2 (u1 h), fun h => p2 (p1 h), fun h => n2 (n1 h)⟩

lemma rowPreserved_markUpcoming (now : Int) (r : SecretRow) :
    RowPreserved r (markUpcoming now r) := by
  simp [RowPreserved, markUpcoming]

lemma rowPreserved_markExpired (now : Int) (r : SecretRow) :
    RowPreserved r (markExpired now r) := by
  simp [RowPreserved, markExpired]

lemma rowPreserved_markRenewal (now : Int) (r : SecretRow) :
    RowPreserved r (markRenewal now r) := by
  simp [RowPreserved, markRenewal]

lemma rowPreserved_condMark (c : Bool) (m : SecretRow → SecretRow) (x : SecretRow)
    (hm : RowPreserved x (m x)) : RowPreserved x (if c then m x else x) := by
  cases c
  · simpa using rowPreserved_refl x
  · simpa using hm

lemma notifyStep_preserves (sel : SecretRow → Bool) (mark : SecretRow → SecretRow)
    (kind : EmailKind) (st : List SecretRow) (hm : ∀ x, RowPreserved x (mark x)) :
    List.Forall₂ RowPreserved st (notifyStep sel mark kind st).1 := by
  unfold notifyStep
  simp only [List.forall₂_map_right_iff]
  rw [List.forall₂_same]
  intro x _
  exact rowPreserved_condMark _ _ _ (hm x)

lemma forall₂_rowPreserved_trans {a b c : List SecretRow}
    (h1 : List.Forall₂ RowPreserved a b) (h2 : List.Forall₂ RowPreserved b c) :
    List.Forall₂ RowPreserved a c := by
  induction h1 generalizing c with
  | nil =>
    cases h2
    exact .nil
  | cons hab _ ih =>
    cases h2 with
    | cons hbc h2t => exact .cons (rowPreserved_trans hab hbc) (ih h2t)

end RowPreservedLemmas

/-- C2 counterexample: a row whose secret was renewed after it had been
flagged expired (expires_on is back in the future while notified_expired is
still 1).  The claim predicts that one run leaves notified_upcoming and
notified_expired both false; instead the run leaves notified_expired true,
sets notified_upcoming true (the row is inside the 30-day window and the
upcoming gate is open), sets notified_renewal true after the confirmation
email, and leaves the stored expiry untouched. -/
theorem claim2_counterexample :
    (MonitorSpnExpiry.main 0 0 0
        [⟨2, "bob", "bob@example.com", "app-b", "cid-b", 1000,
          false, true, false, some (-1000000)⟩]).1
      = [⟨2, "bob", "bob@example.com", "app-b", "cid-b", 1000,
          true, true, true, some 0⟩] := by
  decide

/-- C2 amended: one run of monitor_spn_expiry.main never resets a notification
flag to false and never writes expires_on: row for row, id, email and expiry
are unchanged and every flag that was true stays true.  On renewal the run
only sends the one-time confirmation email and sets notified_renewal (see the
selRenewed pass); resetting notified_upcoming or notified_expired or updating
a cached expiry happens nowhere. -/
theorem claim2_renewal_behavior :
    ∀ (now1 now2 now3 : Int) (st : List MonitorSpnExpiry.SecretRow),
    List.Forall₂ MonitorSpnExpiry.RowPreserved st
      (MonitorSpnExpiry.main now1 now2 now3 st).1 := by
  intro now1 now2 now3 st
  have h1 := notifyStep_preserves (MonitorSpnExpiry.selExpiringSoon now1 30 2)
    (MonitorSpnExpiry.markUpcoming now1) .upcoming st
    (rowPreserved_markUpcoming now1)
  have h2 := notifyStep_preserves (MonitorSpnExpiry.selExpired now2 2)
    (MonitorSpnExpiry.markExpired now2) .expired
    (MonitorSpnExpiry.notifyStep (MonitorSpnExpiry.selExpiringSoon now1 30 2)
      (MonitorSpnExpiry.markUpcoming now1) .upcoming st).1
    (rowPreserved_markExpired now2)
  have h3 := notifyStep_preserves (MonitorSpnExpiry.selRenewed now3)
    (MonitorSpnExpiry.markRenewal now3) .renewal
    (MonitorSpnExpiry.notifyStep (MonitorSpnExpiry.selExpired now2 2)
      (MonitorSpnExpiry.markExpired now2) .expired
      (MonitorSpnExpiry.notifyStep (MonitorSpnExpiry.selExpiringSoon now1 30 2)
        (MonitorSpnExpiry.markUpcoming now1) .upcoming st).1).1
    (rowPreserved_markRenewal now3)
  exact forall₂_rowPreserved_trans (forall₂_rowPreserved_trans h1 h2) h3

/-- C4 counterexample: a qualifying row processed by monitor_spn_expiry.main
while every SMTP send fails (send_email swallows the failure and returns
nothing): no email is delivered, yet the run still sets notified_upcoming = 1
and last_notified_at = now, so the failed notification is not retried on the
next qualifying run. -/
theorem claim4_counterexample :
    MonitorSpnExpiry.deliveredEmails (fun _ => false)
        (MonitorSpnExpiry.main 0 0 0
          [⟨1, "carol", "carol@example.com", "app-c", "cid-c", 5,
            false, false, false, none⟩]).2
      = [] ∧
    (MonitorSpnExpiry.main 0 0 0
        [⟨1, "carol", "carol@example.com", "app-c", "cid-c", 5,
          false, false, false, none⟩]).1
      = [⟨1, "carol", "carol@example.com", "app-c", "cid-c", 5,
          true, false, false, some 0⟩] := by
  decide

section NotifyLoopLemmas

lemma notifyLoop_marks_eq_sent (kind : EmailKind) (fetchUser : Nat → Controllers.LookupResult)
    (sendOk : Nat → Bool) (rows : List Services.AppSecretRow) :
    (Controllers.notifyLoop kind fetchUser sendOk rows).2
      = (Controllers.notifyLoop kind fetchUser sendOk rows).1.map (fun e => e.secretId) := by
  induction rows with
  | nil => simp [Controllers.notifyLoop]
  | cons r rest ih =>
    simp only [Controllers.notifyLoop]
    cases fetchUser r.userInfoId with
    | failure => exact ih
    | missing => exact ih
    | found u =>
      by_cases hs : sendOk r.id = true
      · simp [hs, ih]
      · simp only [Bool.not_eq_true] at hs
        simp [hs, ih]

lemma notifyLoop_mark_mem (kind : EmailKind) (fetchUser : Nat → Controllers.LookupResult)
    (sendOk : Nat → Bool) (rows : List Services.AppSecretRow) (i : Nat) :
    i ∈ (Controllers.notifyLoop kind fetchUser sendOk rows).2 ↔
      ∃ r ∈ rows, r.id = i ∧ (∃ u, fetchUser r.userInfoId = .found u) ∧ sendOk r.id = true := by
  induction rows with
  | nil => simp [Controllers.notifyLoop]
  | cons r rest ih =>
    simp only [Controllers.notifyLoop]
    cases hf : fetchUser r.userInfoId with
    | failure => simp [ih, hf]
    | missing => simp [ih, hf]
    | found u =>
      by_cases hs : sendOk r.id = true
      · simp only [hs, if_true, List.mem_cons, ih]
        constructor
        · rintro (rfl | h)
          · exact ⟨r, Or.inl rfl, rfl, ⟨u, hf⟩, hs⟩
          · obtain ⟨x, hx, hrest⟩ := h
            exact ⟨x, Or.inr hx, hrest⟩
        · rintro ⟨x, hx | hx, hid, hu, hsOk⟩
          · subst hx
            exact Or.inl hid.symm
          · exact Or.inr ⟨x, hx, hid, hu, hsOk⟩
      · simp only [Bool.not_eq_true] at hs
        simp only [hs, Bool.false_eq_true, if_false, ih]
        constructor
        · rintro ⟨x, hx, hrest⟩
          exact ⟨x, List.mem_cons_of_mem r hx, hrest⟩
        · rintro ⟨x, hx, hid, hu, hsOk⟩
          rcases List.mem_cons.mp hx with rfl | hx2
          · rw [hs] at hsOk
            cases hsOk
          · exact ⟨x, hx2, hid, hu, hsOk⟩

lemma notifyLoop_append (kind : EmailKind) (fetchUser : Nat → Controllers.LookupResult)
    (sendOk : Nat → Bool) (xs ys : List Services.AppSecretRow) :
    Controllers.notifyLoop kind fetchUser sendOk (xs ++ ys)
      = ((Controllers.notifyLoop kind fetchUser sendOk xs).1
          ++ (Controllers.notifyLoop kind fetchUser sendOk ys).1,
         (Controllers.notifyLoop kind fetchUser sendOk xs).2
          ++ (Controllers.notifyLoop kind fetchUser sendOk ys).2) := by
  induction xs with
  | nil => simp [Controllers.notifyLoop]
  | cons r rest ih =>
    simp only [List.cons_append, Controllers.notifyLoop]
    cases fetchUser r.userInfoId with
    | failure => exact ih
    | missing => exact ih
    | found u =>
      by_cases hs : sendOk r.id = true
      · simp [hs, ih]
      · simp only [Bool.not_eq_true] at hs
        simp [hs, ih]

end NotifyLoopLemmas

/-- C4 amended: in the controller path (send_upcoming_expiry_notifications and
send_expired_notifications share this loop) a secret id is passed to
mark_secret_notified exactly when its user lookup returned a row and
_send_email reported success; the list of marked ids is precisely the list of
ids of the successfully sent emails, so a failed send leaves the flag and
last_updated_at untouched and the notification is retried on the next
qualifying run.  By contrast monitor_spn_expiry.main marks the flag after
every attempt (see the counterexample). -/
theorem claim4_flags_follow_send :
    ∀ (kind : EmailKind) (fetchUser : Nat → Controllers.LookupResult)
      (sendOk : Nat → Bool) (rows : List Services.AppSecretRow) (i : Nat),
    (Controllers.notifyLoop kind fetchUser sendOk rows).2
        = (Controllers.notifyLoop kind fetchUser sendOk rows).1.map (fun e => e.secretId) ∧
    (i ∈ (Controllers.notifyLoop kind fetchUser sendOk rows).2 ↔
      ∃ r ∈ rows, r.id = i ∧ (∃ u, fetchUser r.userInfoId = .found u) ∧ sendOk r.id = true) :=
  fun kind fetchUser sendOk rows i =>
    ⟨notifyLoop_marks_eq_sent kind fetchUser sendOk rows,
     notifyLoop_mark_mem kind fetchUser sendOk rows i⟩

/-- C7: the per-secret loop of the controller notification methods is a
homomorphism over list append, so the outcome for each secret depends only on
that secret's own lookup and send results and a failure for one secret never
halts or alters the processing of the others; instantiated on the spec
scenario, with three qualifying secrets and the user lookup raising for the
second, the first and third are still notified in the same run. -/
theorem claim7_failure_isolation :
    (∀ (kind : EmailKind) (fetchUser : Nat → Controllers.LookupResult)
       (sendOk : Nat → Bool) (xs ys : List Services.AppSecretRow),
      Controllers.notifyLoop kind fetchUser sendOk (xs ++ ys)
        = ((Controllers.notifyLoop kind fetchUser sendOk xs).1
            ++ (Controllers.notifyLoop kind fetchUser sendOk ys).1,
           (Controllers.notifyLoop kind fetchUser sendOk xs).2
            ++ (Controllers.notifyLoop kind fetchUser sendOk ys).2)) ∧
    (Controllers.send_upcoming_expiry_notifications 0 30 2
        (fun uid => if uid == 2 then Controllers.LookupResult.failure
          else Controllers.LookupResult.found ⟨uid, "owner", "owner@example.com"⟩)
        (fun _ => true)
        [⟨101, "app-1", "k1", 5, 0, "d1", false, false, false, some 0, 1⟩,
         ⟨102, "app-2", "k2", 5, 0, "d2", false, false, false, some 0, 2⟩,
         ⟨103, "app-3", "k3", 5, 0, "d3", false, false, false, some 0, 3⟩]).1
      = [⟨.upcoming, "owner@example.com", 101⟩, ⟨.upcoming, "owner@example.com", 103⟩] := by
  refine ⟨notifyLoop_append, ?_⟩
  decide

section RunAnalysisLemmas

open MonitorSpnExpiry

lemma notifyStep_state_cases (sel : SecretRow → Bool) (mark : SecretRow → SecretRow)
    (kind : EmailKind) (st : List SecretRow) (r' : SecretRow)
    (h : r' ∈ (notifyStep sel mark kind st).1) :
    ∃ r ∈ st, r' = mark r ∨ (r' = r ∧ sel r = false) := by
  unfold notifyStep at h
  simp only [List.mem_map] at h
  obtain ⟨r, hr, hr'⟩ := h
  by_cases hc : ((st.filter sel).any (fun c => c.id == r.id)) = true
  · rw [if_pos hc] at hr'
    exact ⟨r, hr, Or.inl hr'.symm⟩
  · rw [if_neg hc] at hr'
    have hsel : sel r = false := by
      cases hs : sel r
      · rfl
      · exact absurd
          (List.any_eq_true.mpr ⟨r, List.mem_filter.mpr ⟨hr, hs⟩, by simp⟩) hc
    exact ⟨r, hr, Or.inr ⟨hr'.symm, hsel⟩⟩

lemma notifyStep_email_mem (sel : SecretRow → Bool) (mark : SecretRow → SecretRow)
    (kind : EmailKind) (st : List SecretRow) (e : EmailMsg)
    (h : e ∈ (notifyStep sel mark kind st).2) :
    ∃ c ∈ st, sel c = true ∧ e = { kind := kind, recipient := c.email, secretId := c.id } := by
  unfold notifyStep at h
  simp only [List.mem_map, List.mem_filter] at h
  obtain ⟨c, ⟨hc, hsel⟩, he⟩ := h
  exact ⟨c, hc, hsel, he.symm⟩

lemma notifyStep_state_id_expiry (sel : SecretRow → Bool) (mark : SecretRow → SecretRow)
    (kind : EmailKind) (st : List SecretRow) (r' : SecretRow)
    (hid : ∀ x, (mark x).id = x.id) (hexp : ∀ x, (mark x).expiresOn = x.expiresOn)
    (h : r' ∈ (notifyStep sel mark kind st).1) :
    ∃ r ∈ st, r'.id = r.id ∧ r'.expiresOn = r.expiresOn := by
  obtain ⟨r, hr, hor⟩ := notifyStep_state_cases sel mark kind st r' h
  rcases hor with hm | ⟨hu, _⟩
  · exact ⟨r, hr, by rw [hm, hid], by rw [hm, hexp]⟩
  · exact ⟨r, hr, by rw [hu], by rw [hu]⟩

lemma notifyStep_no_cands (sel : SecretRow → Bool) (mark : SecretRow → SecretRow)
    (kind : EmailKind) (st : List SecretRow) (h : st.filter sel = []) :
    notifyStep sel mark kind st = (st, []) := by
  unfold notifyStep
  rw [h]
  simp

lemma resendGate_false_iff (now : Int) (i : Nat) (flag : Bool) (last : Option Int) :
    resendGate now i flag last = false ↔
      flag = true ∧ ∃ t, last = some t ∧ now - (i : Int) * secondsPerDay < t := by
  cases flag <;> cases last <;>
    simp [resendGate, sqlNullableLe]

lemma selExpiringSoon_false_of_marked (now : Int) (r : SecretRow)
    (hu : r.notifiedUpcoming = true) (hl : r.lastNotifiedAt = some now) :
    selExpiringSoon now 30 2 r = false := by
  apply Bool.and_eq_false_iff.mpr
  right
  rw [resendGate_false_iff]
  refine ⟨hu, now, hl, ?_⟩
  simp only [secondsPerDay]
  push_cast
  omega

lemma selExpired_false_of_marked (now : Int) (r : SecretRow)
    (he : r.notifiedExpired = true) (hl : r.lastNotifiedAt = some now) :
    selExpired now 2 r = false := by
  apply Bool.and_eq_false_iff.mpr
  right
  rw [resendGate_false_iff]
  refine ⟨he, now, hl, ?_⟩
  simp only [secondsPerDay]
  push_cast
  omega

lemma selRenewed_false_of_marked (now : Int) (r : SecretRow)
    (hn : r.notifiedRenewal = true) : selRenewed now r = false := by
  simp [selRenewed, hn]

lemma selExpiringSoon_false_pres (now : Int) (r r' : SecretRow)
    (h : selExpiringSoon now 30 2 r = false)
    (he : r'.expiresOn = r.expiresOn)
    (hf : r'.notifiedUpcoming = r.notifiedUpcoming)
    (hl : r'.lastNotifiedAt = r.lastNotifiedAt ∨ r'.lastNotifiedAt = some now) :
    selExpiringSoon now 30 2 r' = false := by
  unfold selExpiringSoon at h ⊢
  rcases Bool.and_eq_false_iff.mp h with hw | hg
  · apply Bool.and_eq_false_iff.mpr
    left
    rw [he]
    exact hw
  · apply Bool.and_eq_false_iff.mpr
    right
    rw [resendGate_false_iff] at hg
    obtain ⟨hu, t, hlt, hgt⟩ := hg
    rw [resendGate_false_iff]
    refine ⟨by rw [hf]; exact hu, ?_⟩
    rcases hl with hsame | hnow
    · exact ⟨t, by rw [hsame]; exact hlt, hgt⟩
    · refine ⟨now, hnow, ?_⟩
      simp only [secondsPerDay]
      push_cast
      omega

lemma selExpired_false_pres (now : Int) (r r' : SecretRow)
    (h : selExpired now 2 r = false)
    (he : r'.expiresOn = r.expiresOn)
    (hf : r'.notifiedExpired = r.notifiedExpired)
    (hl : r'.lastNotifiedAt = r.lastNotifiedAt ∨ r'.lastNotifiedAt = some now) :
    selExpired now 2 r' = false := by
  unfold selExpired at h ⊢
  rcases Bool.and_eq_false_iff.mp h with hw | hg
  · apply Bool.and_eq_false_iff.mpr
    left
    rw [he]
    exact hw
  · apply Bool.and_eq_false_iff.mpr
    right
    rw [resendGate_false_iff] at hg
    obtain ⟨hu, t, hlt, hgt⟩ := hg
    rw [resendGate_false_iff]
    refine ⟨by rw [hf]; exact hu, ?_⟩
    rcases hl with hsame | hnow
    · exact ⟨t, by rw [hsame]; exact hlt, hgt⟩
    · refine ⟨now, hnow, ?_⟩
      simp only [secondsPerDay]
      push_cast
      omega

lemma selExpiringSoon_true_now_le (now : Int) (days i : Nat) (r : SecretRow)
    (h : selExpiringSoon now days i r = true) : now ≤ r.expiresOn := by
  simp only [selExpiringSoon, Bool.and_eq_true, decide_eq_true_eq] at h
  exact h.1.1

lemma selExpired_true_lt (now : Int) (i : Nat) (r : SecretRow)
    (h : selExpired now i r = true) : r.expiresOn < now := by
  simp only [selExpired, Bool.and_eq_true, decide_eq_true_eq] at h
  exact h.1

lemma main_state_calm (now : Int) (st : List SecretRow) :
    ∀ r3 ∈ (main now now now st).1,
      selExpiringSoon now 30 2 r3 = false ∧
      selExpired now 2 r3 = false ∧
      selRenewed now r3 = false := by
  intro r3 hr3
  have hmain : (main now now now st).1 =
      (notifyStep (selRenewed now) (markRenewal now) .renewal
        ((notifyStep (selExpired now 2) (markExpired now) .expired
          ((notifyStep (selExpiringSoon now 30 2) (markUpcoming now) .upcoming st).1)).1)).1 :=
    rfl
  rw [hmain] at hr3
  obtain ⟨r2, hr2, hcase3⟩ := notifyStep_state_cases _ _ _ _ _ hr3
  obtain ⟨r1, hr1, hcase2⟩ := notifyStep_state_cases _ _ _ _ _ hr2
  obtain ⟨r0, _, hcase1⟩ := notifyStep_state_cases _ _ _ _ _ hr1
  rcases hcase3 with h3 | ⟨h3, hp3⟩ <;>
    rcases hcase2 with h2 | ⟨h2, hp2⟩ <;>
      rcases hcase1 with h1 | ⟨h1, hp1⟩
  · -- marked in all three passes
    subst h3 h2 h1
    refine ⟨selExpiringSoon_false_of_marked now _ rfl rfl,
      selExpired_false_of_marked now _ rfl rfl,
      selRenewed_false_of_marked now _ rfl⟩
  · -- untouched in pass 1, marked in passes 2 and 3
    subst h3 h2 h1
    refine ⟨?_, selExpired_false_of_marked now _ rfl rfl,
      selRenewed_false_of_marked now _ rfl⟩
    exact selExpiringSoon_false_pres now _ _ hp1 rfl rfl (Or.inr rfl)
  · -- marked in pass 1, untouched in pass 2, marked in pass 3
    subst h3 h2 h1
    refine ⟨selExpiringSoon_false_of_marked now _ rfl rfl, ?_,
      selRenewed_false_of_marked now _ rfl⟩
    exact selExpired_false_pres now _ _ hp2 rfl rfl (Or.inr rfl)
  · -- untouched in passes 1 and 2, marked in pass 3
    subst h3 h2 h1
    refine ⟨?_, ?_, selRenewed_false_of_marked now _ rfl⟩
    · exact selExpiringSoon_false_pres now _ _ hp1 rfl rfl (Or.inr rfl)
    · exact selExpired_false_pres now _ _ hp2 rfl rfl (Or.inr rfl)
  · -- marked in passes 1 and 2, untouched in pass 3
    subst h3 h2 h1
    refine ⟨selExpiringSoon_false_of_marked now _ rfl rfl,
      selExpired_false_of_marked now _ rfl rfl, hp3⟩
  · -- untouched in pass 1, marked in pass 2, untouched in pass 3
    subst h3 h2 h1
    refine ⟨?_, selExpired_false_of_marked now _ rfl rfl, hp3⟩
    exact selExpiringSoon_false_pres now _ _ hp1 rfl rfl (Or.inr rfl)
  · -- marked in pass 1, untouched in passes 2 and 3
    subst h3 h2 h1
    exact ⟨selExpiringSoon_false_of_marked now _ rfl rfl, hp2, hp3⟩
  · -- untouched in all three passes
    subst h3 h2 h1
    exact ⟨hp1, hp2, hp3⟩

end RunAnalysisLemmas

lemma main_no_cands (now : Int) (S : List MonitorSpnExpiry.SecretRow)
    (h1 : S.filter (MonitorSpnExpiry.selExpiringSoon now 30 2) = [])
    (h2 : S.filter (MonitorSpnExpiry.selExpired now 2) = [])
    (h3 : S.filter (MonitorSpnExpiry.selRenewed now) = []) :
    MonitorSpnExpiry.main now now now S = (S, []) := by
  have e1 := notifyStep_no_cands (MonitorSpnExpiry.selExpiringSoon now 30 2)
    (MonitorSpnExpiry.markUpcoming now) .upcoming S h1
  have e2 := notifyStep_no_cands (MonitorSpnExpiry.selExpired now 2)
    (MonitorSpnExpiry.markExpired now) .expired S h2
  have e3 := notifyStep_no_cands (MonitorSpnExpiry.selRenewed now)
    (MonitorSpnExpiry.markRenewal now) .renewal S h3
  unfold MonitorSpnExpiry.main
  rw [e1]
  dsimp only []
  rw [e2]
  dsimp only []
  rw [e3]
  simp

/-- C3: running monitor_spn_expiry.main twice in immediate succession (all
queries of both runs evaluate at the same instant, and nothing changes
expires_on between the runs, which the run itself never does) sends zero
emails in the second run: after the first run every row fails all three
selection queries, because each selected row had its flag set and
last_notified_at moved to now, and every unselected row still fails the same
clause it failed before. -/
theorem claim3_second_run_silent :
    ∀ (now : Int) (st : List MonitorSpnExpiry.SecretRow),
    (MonitorSpnExpiry.main now now now (MonitorSpnExpiry.main now now now st).1).2 = [] := by
  intro now st
  have hc := main_state_calm now st
  have h1 : ((MonitorSpnExpiry.main now now now st).1).filter
      (MonitorSpnExpiry.selExpiringSoon now 30 2) = [] :=
    List.filter_eq_nil_iff.mpr (fun r hr => by simp [(hc r hr).1])
  have h2 : ((MonitorSpnExpiry.main now now now st).1).filter
      (MonitorSpnExpiry.selExpired now 2) = [] :=
    List.filter_eq_nil_iff.mpr (fun r hr => by simp [(hc r hr).2.1])
  have h3 : ((MonitorSpnExpiry.main now now now st).1).filter
      (MonitorSpnExpiry.selRenewed now) = [] :=
    List.filter_eq_nil_iff.mpr (fun r hr => by simp [(hc r hr).2.2])
  rw [main_no_cands now ((MonitorSpnExpiry.main now now now st).1) h1 h2 h3]

/-- C8 counterexample: the three queries of one run each call GETDATE and
datetime.now afresh, so the clock can pass an expiry inside a single run.
With the expiring-soon pass at instant 0 and the expired pass at instant 10,
a secret expiring at instant 5 (all flags clear) receives both the
expiring-soon email and the expired email in the same run. -/
theorem claim8_counterexample :
    (MonitorSpnExpiry.main 0 10 10
        [⟨1, "dave", "dave@example.com", "app-d", "cid-d", 5,
          false, false, false, none⟩]).2
      = [⟨.upcoming, "dave@example.com", 1⟩, ⟨.expired, "dave@example.com", 1⟩] := by
  decide

/-- C8 amended: when the three queries of a run evaluate at one instant (the
clock does not pass any expiry mid-run) and row ids are unique, no application
receives both an expiring-soon email and an expired email in that run: the two
selections demand now <= expires_on and expires_on < now on the same
underlying row, which is impossible. -/
theorem claim8_urgency_exclusive :
    ∀ (now : Int) (st : List MonitorSpnExpiry.SecretRow),
    (st.map (fun r => r.id)).Nodup →
    ∀ e1 ∈ (MonitorSpnExpiry.main now now now st).2,
    ∀ e2 ∈ (MonitorSpnExpiry.main now now now st).2,
    e1.kind = EmailKind.upcoming → e2.kind = EmailKind.expired →
    e1.secretId ≠ e2.secretId := by
  intro now st hnd e1 he1 e2 he2 hk1 hk2 heq
  have hsplit : (MonitorSpnExpiry.main now now now st).2 =
      (MonitorSpnExpiry.notifyStep (MonitorSpnExpiry.selExpiringSoon now 30 2)
        (MonitorSpnExpiry.markUpcoming now) .upcoming st).2 ++
      (MonitorSpnExpiry.notifyStep (MonitorSpnExpiry.selExpired now 2)
        (MonitorSpnExpiry.markExpired now) .expired
        ((MonitorSpnExpiry.notifyStep (MonitorSpnExpiry.selExpiringSoon now 30 2)
          (MonitorSpnExpiry.markUpcoming now) .upcoming st).1)).2 ++
      (MonitorSpnExpiry.notifyStep (MonitorSpnExpiry.selRenewed now)
        (MonitorSpnExpiry.markRenewal now) .renewal
        ((MonitorSpnExpiry.notifyStep (MonitorSpnExpiry.selExpired now 2)
          (MonitorSpnExpiry.markExpired now) .expired
          ((MonitorSpnExpiry.notifyStep (MonitorSpnExpiry.selExpiringSoon now 30 2)
            (MonitorSpnExpiry.markUpcoming now) .upcoming st).1)).1)).2 := rfl
  rw [hsplit] at he1 he2
  -- e1 carries the upcoming template, so it comes from the first pass
  rcases (List.mem_append.mp he1) with he1' | he1c
  case inr =>
    obtain ⟨c, _, _, hce⟩ := notifyStep_email_mem _ _ _ _ _ he1c
    rw [hce] at hk1
    cases hk1
  rcases (List.mem_append.mp he1') with he1a | he1b
  case inr =>
    obtain ⟨c, _, _, hce⟩ := notifyStep_email_mem _ _ _ _ _ he1b
    rw [hce] at hk1
    cases hk1
  -- e2 carries the expired template, so it comes from the second pass
  rcases (List.mem_append.mp he2) with he2' | he2c
  case inr =>
    obtain ⟨c, _, _, hce⟩ := notifyStep_email_mem _ _ _ _ _ he2c
    rw [hce] at hk2
    cases hk2
  rcases (List.mem_append.mp he2') with he2a | he2b
  case inl =>
    obtain ⟨c, _, _, hce⟩ := notifyStep_email_mem _ _ _ _ _ he2a
    rw [hce] at hk2
    cases hk2
  obtain ⟨c1, hc1, hsel1, he1eq⟩ := notifyStep_email_mem _ _ _ _ _ he1a
  obtain ⟨c2, hc2, hsel2, he2eq⟩ := notifyStep_email_mem _ _ _ _ _ he2b
  obtain ⟨c0, hc0, hid0, hexp0⟩ := notifyStep_state_id_expiry
    (MonitorSpnExpiry.selExpiringSoon now 30 2) (MonitorSpnExpiry.markUpcoming now)
    .upcoming st c2 (fun _ => rfl) (fun _ => rfl) hc2
  have hle : now ≤ c1.expiresOn := selExpiringSoon_true_now_le now 30 2 c1 hsel1
  have hlt : c2.expiresOn < now := selExpired_true_lt now 2 c2 hsel2
  have hids : c1.id = c0.id := by
    have h1 : e1.secretId = c1.id := by rw [he1eq]
    have h2 : e2.secretId = c2.id := by rw [he2eq]
    rw [h1, h2] at heq
    rw [heq, hid0]
  have hc10 : c1 = c0 :=
    List.inj_on_of_nodup_map hnd hc1 hc0 hids
  rw [hc10, ← hexp0] at hle
  omega

/-- C8 witness for the amended theorem: two rows with distinct ids, one an
upcoming candidate and one an expired candidate at instant 0; the theorem
applied to the two emails of that run yields that their secret ids differ. -/
theorem claim8_witness :
    (⟨.upcoming, "a@example.com", 1⟩ : EmailMsg).secretId
      ≠ (⟨.expired, "b@example.com", 2⟩ : EmailMsg).secretId :=
  claim8_urgency_exclusive 0
    [⟨1, "ann", "a@example.com", "app-a", "cid-a", 5, false, false, false, none⟩,
     ⟨2, "ben", "b@example.com", "app-b", "cid-b", -5, false, false, false, none⟩]
    (by decide)
    ⟨.upcoming, "a@example.com", 1⟩ (by decide)
    ⟨.expired, "b@example.com", 2⟩ (by decide)
    rfl rfl
